import Mathlib

/-!
Verification development for the ZTF batch forced-photometry scripts
(`src/retrieve.py`, `src/submit.py`).

The Python code is shallowly embedded as executable Lean definitions:

* Tabular cell values are modelled by `Cell`: a finite rational (`num`),
  the IEEE NaN / pandas missing marker (`nan`), the literal "null"/"" text
  sentinel the service emits (`sentinel`), and the Python `None` that
  `df.replace({np.nan: None})` produces (`null`).  Arithmetic on cells
  propagates NaN exactly as IEEE/pandas does for the cases the code can
  reach; division by zero is mapped to `nan` (IEEE would give an infinity,
  but every such row is discarded by a mask before it is observable, see
  the comments at `cdiv`).
* `np.log10` is kept abstract as an oracle `lg : ℚ → Option ℚ`
  (`none` standing for a NaN result); all theorems hold for every oracle.
* Floating-point doubles are modelled by ℚ; `"%.7f"` parsing/rounding is
  `round7` (round half up instead of the double's half-to-even tie rule,
  which no claim exercises).
* HTTP traffic is abstracted by oracles inside `Env`: a status-query
  response per poll attempt and a light-curve fetch response per
  `lightcurve` file reference.  Concurrency of the fetch fan-out is
  immaterial to the result map (distinct keys, joined before use), so the
  fan-out is modelled as the equivalent in-order traversal.
-/

/-- One cell of a pandas data frame as the scripts use it. -/
inductive Cell where
  | num (q : ℚ)
  | nan
  | sentinel
  | null
deriving DecidableEq

/-- Lines 59-60 of retrieve.py: `df.replace({"null": np.nan})` and
`df.replace({"": np.nan})` on a numeric column. -/
def replCell : Cell → Cell
  | .sentinel => .nan
  | c => c

/-- Line 82 of retrieve.py: `df.replace({np.nan: None})`. -/
def finalRepl : Cell → Cell
  | .nan => .null
  | c => c

/-- Subtraction of two cells; any non-number operand yields NaN. -/
def csub : Cell → Cell → Cell
  | .num a, .num b => .num (a - b)
  | _, _ => .nan

/-- Multiplication of two cells; any non-number operand yields NaN. -/
def cmul : Cell → Cell → Cell
  | .num a, .num b => .num (a * b)
  | _, _ => .nan

/-- Division of two cells.  A zero divisor is mapped to NaN: IEEE would
give an infinity, but in `fetch_lightcurve` a zero `forcediffimfluxunc`
row is nulled by the `iszero` mask and a zero `forcediffimflux` row by
the SNR mask, so the difference is never observable in the output. -/
def cdiv : Cell → Cell → Cell
  | .num a, .num b => if b = 0 then .nan else .num (a / b)
  | _, _ => .nan

/-- `np.log10` on a cell, through the abstract oracle `lg`. -/
def clog10 (lg : ℚ → Option ℚ) : Cell → Cell
  | .num a =>
    match lg a with
    | some v => .num v
    | none => .nan
  | _ => .nan

/-- Line 69 of retrieve.py: the comparison `... < 3.0`; false on NaN,
exactly as an IEEE comparison with NaN is. -/
def cellLt3 : Cell → Bool
  | .num a => decide (a < 3)
  | _ => false

/-- Line 74 of retrieve.py: `== 0.0`; false on NaN. -/
def cellIsZero : Cell → Bool
  | .num a => decide (a = 0)
  | _ => false

/-- Line 78 of retrieve.py: `np.isnan`. -/
def cellIsNan : Cell → Bool
  | .nan => true
  | _ => false

/-- One row of the decoded flat-file light-curve table, restricted to the
columns `fetch_lightcurve` requires (`diffmaglim` not yet renamed; the
rename to `limiting_mag` is part of the column-level model below). -/
structure RawRow where
  jd : Cell
  forcediffimflux : Cell
  forcediffimfluxunc : Cell
  diffmaglim : Cell
  zpdiff : Cell
  filt : Option String
deriving DecidableEq

/-- One normalized output row of `fetch_lightcurve`. -/
structure OutRow where
  mjd : Cell
  mag : Cell
  magerr : Cell
  limiting_mag : Cell
  filt : Option String
  magsys : String
deriving DecidableEq

/-- Null-sentinel replacement on the filter (string) column: pandas
`.replace` turns the literal "null" or "" into NaN (here `none`). -/
def filtRepl : Option String → Option String
  | some s => if s = "null" ∨ s = "" then none else some s
  | none => none

/-- Lines 59-60 of retrieve.py applied to one whole row. -/
def sentRepl (r : RawRow) : RawRow :=
  { jd := replCell r.jd
    forcediffimflux := replCell r.forcediffimflux
    forcediffimfluxunc := replCell r.forcediffimfluxunc
    diffmaglim := replCell r.diffmaglim
    zpdiff := replCell r.zpdiff
    filt := filtRepl r.filt }

/-- Line 69: `snr = df['forcediffimflux'] / df['forcediffimfluxunc'] < 3.0`. -/
def snrMask (r : RawRow) : Bool :=
  cellLt3 (cdiv r.forcediffimflux r.forcediffimfluxunc)

/-- Line 74: `iszero = df['forcediffimfluxunc'] == 0.0`. -/
def zeroMask (r : RawRow) : Bool := cellIsZero r.forcediffimfluxunc

/-- Line 78: `isnan = np.isnan(df['forcediffimflux'])`. -/
def nanMask (r : RawRow) : Bool := cellIsNan r.forcediffimflux

/-- Line 66: `df['mag'] = df['zpdiff'] - 2.5 * np.log10(df['forcediffimflux'])`. -/
def magRaw (lg : ℚ → Option ℚ) (r : RawRow) : Cell :=
  csub r.zpdiff (cmul (.num 2.5) (clog10 lg r.forcediffimflux))

/-- Line 67: `df['magerr'] = 1.0857 * df['forcediffimfluxunc'] / df['forcediffimflux']`
(left associated, as Python parses it). -/
def magerrRaw (r : RawRow) : Cell :=
  cdiv (cmul (.num 1.0857) r.forcediffimfluxunc) r.forcediffimflux

/-- `df.loc[mask, col] = None` on a float column: pandas coerces the
assigned None to NaN; line 82 then turns it into None. -/
def maskCell (b : Bool) (c : Cell) : Cell := if b then .nan else c

/-- Normalize the underscore-stripped, lowercased filter name
(lines 63-64 of retrieve.py); `.str` operations keep NaN as NaN.
Replacing every underscore by the empty string is underscore removal,
and lowercasing is done character by character. -/
def filtNorm (o : Option String) : Option String :=
  o.map (fun s =>
    String.mk ((s.toList.filter (fun ch => ch ≠ '_')).map Char.toLower))

/-- The value-level pipeline of `fetch_lightcurve` (retrieve.py lines
59-93) on one row of the table with the required schema: null-sentinel
replacement, MJD conversion (astropy's `Time(jd).mjd` is exactly
`jd - 2400000.5`), filter normalization, magnitude and magnitude-error
computation, the three cumulative nulling masks in source order
(SNR < 3, zero uncertainty, NaN flux), the final NaN → None replacement,
and the fixed `magsys = 'ab'` tag. -/
def normalizeRow (lg : ℚ → Option ℚ) (r0 : RawRow) : OutRow :=
  let r := sentRepl r0
  { mjd := finalRepl (csub r.jd (.num 2400000.5))
    mag := finalRepl (maskCell (nanMask r) (maskCell (zeroMask r)
      (maskCell (snrMask r) (magRaw lg r))))
    magerr := finalRepl (maskCell (nanMask r) (maskCell (zeroMask r)
      (maskCell (snrMask r) (magerrRaw r))))
    limiting_mag := finalRepl r.diffmaglim
    filt := filtNorm r.filt
    magsys := "ab" }

/-- Line 95 of retrieve.py: `df.to_dict(orient='list')` for the numeric
columns — the column-major output mapping of `fetch_lightcurve`. -/
def outColumns (lg : ℚ → Option ℚ) (rows : List RawRow) :
    List (String × List Cell) :=
  let outs := rows.map (normalizeRow lg)
  [("mjd", outs.map OutRow.mjd),
   ("mag", outs.map OutRow.mag),
   ("magerr", outs.map OutRow.magerr),
   ("limiting_mag", outs.map OutRow.limiting_mag)]

/-- Lines 45-52 of retrieve.py: the required-column contract of
`fetch_lightcurve` (the `desired_columns` set). -/
def desired_columns : List String :=
  ["jd", "forcediffimflux", "forcediffimfluxunc", "diffmaglim", "zpdiff",
   "filter"]

/-- Lines 84-87 of retrieve.py: the columns retained by the final drop. -/
def keep_columns : List String :=
  ["mjd", "ra", "dec", "mag", "magerr", "limiting_mag", "filter"]

/-- Line 44 of retrieve.py: `df.columns.str.replace(',', '')` on one
column name (replacing each comma by the empty string removes it). -/
def stripCommas (s : String) : String :=
  String.mk (s.toList.filter (fun ch => ch ≠ ','))

/-- `df[name] = ...` on the column list: pandas appends a new column at
the end if absent and leaves the order unchanged if present. -/
def addCol (cols : List String) (c : String) : List String :=
  if c ∈ cols then cols else cols ++ [c]

/-- The column-level pipeline of `fetch_lightcurve` (retrieve.py lines
44-95): strip commas from the column names, check the required-column
contract (raising `ValueError('Missing expected column')` otherwise),
rename `diffmaglim` to `limiting_mag`, add the computed `mjd`, `mag`,
`magerr` columns, drop everything outside the keep set, and append the
constant `magsys` column.  The resulting list is the column set of the
output mapping, in pandas order. -/
def normalize_columns (cols : List String) : Except String (List String) :=
  let cols1 := cols.map stripCommas
  if desired_columns.all (fun c => decide (c ∈ cols1)) then
    let cols2 := cols1.map (fun c => if c = "diffmaglim" then "limiting_mag" else c)
    let cols3 := addCol (addCol (addCol cols2 "mjd") "mag") "magerr"
    let cols4 := cols3.filter (fun c => decide (c ∈ keep_columns))
    Except.ok (addCol cols4 "magsys")
  else Except.error "Missing expected column"

/-- `float("%.7f" % x)`: rounding a coordinate to 7 decimal places, as
both scripts do when parsing the position file (printf rounds the double
half-to-even; on the values any claim touches the two tie rules agree). -/
def round7 (q : ℚ) : ℚ := ((round (q * 10000000) : ℤ) : ℚ) / 10000000

/-- One HTTP POST made by `submit_post` (submit.py lines 21-32): the
batch payload carries the accumulated ra and dec lists. -/
structure SubmitCall where
  nra : ℕ
  ndec : ℕ
  isBatch : Bool
deriving DecidableEq

/-- submit.py lines 8-43, `submit_post`: at most one request is issued,
then the function ALWAYS terminates the whole process — `exit(1)` on the
single-position guard or a non-200 response, `exit(0)` on success.  The
returned pair is (requests actually issued, process exit code). -/
def submit_post_model (raList decList : List ℚ) (batch : Bool)
    (ok : Bool) : List SubmitCall × ℕ :=
  if raList.length > 1 ∧ batch = false then ([], 1)
  else ([⟨raList.length, decList.length, batch⟩], if ok then 0 else 1)

/-- Outcome of running `submit`: either the process exited inside
`submit_post` with the given code, or the function returned normally. -/
inductive SubmitOutcome where
  | exited (code : ℕ)
  | returned
deriving DecidableEq

/-- submit.py lines 50-73, the batch branch of `submit`.  It iterates the
module-level `lines` of the position file (not its `ra`/`dec` arguments),
rounds each coordinate to 7 decimals, and calls `submit_post` whenever
the running count hits a multiple of 1500, with a final flush for a
non-empty remainder.  Because `submit_post` always exits the process
(SystemExit propagates through the plain for loop), reaching any
`submit_post` call terminates the whole iteration.  `ok n` tells
whether the (n+1)-st POST of the process would get HTTP 200. -/
def submitBatchAux (ok : ℕ → Bool) :
    List (ℚ × ℚ) → ℕ → List ℚ → List ℚ → List SubmitCall →
    List SubmitCall × SubmitOutcome
  | [], _, ralist, declist, acc =>
    if 0 < ralist.length then
      let (cs, code) := submit_post_model ralist declist true (ok acc.length)
      (acc ++ cs, .exited code)
    else (acc, .returned)
  | l :: ls, i, ralist, declist, acc =>
    let ralist := ralist ++ [round7 l.1]
    let declist := declist ++ [round7 l.2]
    if (i + 1) % 1500 = 0 then
      let (cs, code) := submit_post_model ralist declist true (ok acc.length)
      (acc ++ cs, .exited code)
    else submitBatchAux ok ls (i + 1) ralist declist acc

/-- `submit(..., batch=True)` on a position file whose parsed lines are
`lines`: the trace of POSTs issued and how the call ended. -/
def submitBatch (ok : ℕ → Bool) (lines : List (ℚ × ℚ)) :
    List SubmitCall × SubmitOutcome :=
  submitBatchAux ok lines 0 [] [] []

/-- One row of the service's status table as `retrieve` reads it
(retrieve.py line 117-118): position, exit code and light-curve file
reference; `pd.read_html` NaNs already replaced by None, so the optional
fields use `Option`. -/
structure JobRow where
  ra : ℚ
  dec : ℚ
  exitcode : Option ℤ
  lightcurve : Option String
deriving DecidableEq

/-- One status-query response: a non-200 HTTP code, or the parsed table. -/
inductive StatusResponse where
  | fail (code : ℕ)
  | ok (tbl : List JobRow)

/-- The light-curve fetch failed: non-200 response (retrieve.py line 37)
or a missing required column (line 54). -/
inductive FetchFail where
  | fail
deriving DecidableEq

/-- The output of one `fetch_lightcurve` call: the column-major mapping
it returns.  `retrieve` treats it opaquely, so the fetch oracle in `Env`
produces it directly. -/
def LcData : Type := List (String × List Cell)

instance : DecidableEq LcData := by unfold LcData; infer_instance

/-- The external world one `retrieve` run observes: the status-query
response for each poll attempt, the parsed floats of
`List_of_RA_Dec.txt`, and the fetch outcome for each light-curve file
reference (the URL depends only on the row's `lightcurve` field).
Credentials and the batch flag only select endpoint and auth and are
absorbed into these oracles. -/
structure Env where
  statusResp : ℕ → StatusResponse
  fileLines : List (ℚ × ℚ)
  fetchResp : Option String → Except FetchFail LcData

/-- retrieve.py lines 122-126: the ra list re-read from the position
file, each value rounded to 7 decimals. -/
def fileRa (env : Env) : List ℚ := env.fileLines.map (fun l => round7 l.1)

/-- retrieve.py lines 122-126: the dec list re-read from the position
file, each value rounded to 7 decimals. -/
def fileDec (env : Env) : List ℚ := env.fileLines.map (fun l => round7 l.2)

/-- retrieve.py line 129: `df_result[df_result['ra'].isin(ra) &
df_result['dec'].isin(dec)]` — a row is kept iff its ra is SOME
requested ra and its dec is SOME requested dec, as two independent
column-wise membership tests. -/
def matchedRows (tbl : List JobRow) (ra dec : List ℚ) : List JobRow :=
  tbl.filter (fun r => decide (r.ra ∈ ra) && decide (r.dec ∈ dec))

/-- retrieve.py line 130: the reconciler keeps polling iff the matched
row count is strictly below the requested count. -/
def continue_polling (matchedCount requestedCount : ℕ) : Bool :=
  decide (matchedCount < requestedCount)

/-- Result of the poll loop, with the number of status queries issued
and the total seconds slept. -/
inductive PollResult where
  | timeout (queries sleepSeconds : ℕ)
  | done (tbl : List JobRow) (queries sleepSeconds : ℕ)
deriving DecidableEq

/-- retrieve.py lines 102-142, the `while n_retry < 60` poll loop.
`fuel` is `60 - n_retry`, `nRetry` the current attempt index, `q`/`s`
the queries issued and seconds slept so far.  A non-200 response or an
incomplete match both sleep 60 seconds and retry; a complete match
breaks out with the matched table. -/
def pollAux (resp : ℕ → StatusResponse) (reqRa reqDec : List ℚ) :
    ℕ → ℕ → ℕ → ℕ → PollResult
  | 0, _, q, s => .timeout q s
  | fuel + 1, nRetry, q, s =>
    match resp nRetry with
    | .fail _ => pollAux resp reqRa reqDec fuel (nRetry + 1) (q + 1) (s + 60)
    | .ok tbl =>
      let matched := matchedRows tbl reqRa reqDec
      if continue_polling matched.length reqRa.length then
        pollAux resp reqRa reqDec fuel (nRetry + 1) (q + 1) (s + 60)
      else .done matched (q + 1) s

/-- The ways one `retrieve` run can abort (the raised exceptions). -/
inductive RunError where
  | pollTimeout
  | noLightcurves
  | fetchFailed
deriving DecidableEq

deriving instance DecidableEq for Except

/-- The observable outcome of one `retrieve` run: status queries issued,
seconds slept, the rows handed to `fetch_lightcurve` (the submitted
futures, retrieve.py lines 170-171), and either the assembled result
mapping keyed by position or the raised error. -/
structure RunTrace where
  queries : ℕ
  sleepSeconds : ℕ
  dispatched : List JobRow
  outcome : Except RunError (List ((ℚ × ℚ) × LcData))
deriving DecidableEq

/-- retrieve.py line 149: the terminal, non-retryable exit codes. -/
def bad_exitcodes : List ℤ := [63, 64, 65, 255]

/-- Whether a status row carries one of the bad exit codes
(`df_result['exitcode'].isin([63, 64, 65, 255])`; a missing exit code is
not in the set). -/
def hasBadExit (r : JobRow) : Bool :=
  match r.exitcode with
  | some c => decide (c ∈ bad_exitcodes)
  | none => false

/-- retrieve.py lines 172-174: collect each future's result in row
order; the first raised exception aborts the whole run, and each
successful result is keyed by the row's position. -/
def collectResults (fetch : Option String → Except FetchFail LcData) :
    List JobRow → Except FetchFail (List ((ℚ × ℚ) × LcData))
  | [] => .ok []
  | r :: rs =>
    match fetch r.lightcurve with
    | .error e => .error e
    | .ok d =>
      match collectResults fetch rs with
      | .error e => .error e
      | .ok rest => .ok (((r.ra, r.dec), d) :: rest)

/-- retrieve.py lines 148-179, the post-poll phase on the matched table
`tbl` (= `df_result`): compute `good_df_result` by dropping bad exit
codes and rows without a light-curve reference, raise if `df_result` or
the filtered table is empty, then submit one fetch per row of
`df_result` — the unfiltered table — and assemble the keyed results.
`q`/`s` carry the poll counters through to the trace. -/
def phase2 (fetch : Option String → Except FetchFail LcData)
    (tbl : List JobRow) (q s : ℕ) : RunTrace :=
  let good := tbl.filter (fun r => !(hasBadExit r))
  if tbl.length = 0 then ⟨q, s, [], .error .noLightcurves⟩
  else
    let good2 := good.filter (fun r => r.lightcurve.isSome)
    if good2.length = 0 then ⟨q, s, [], .error .noLightcurves⟩
    else
      match collectResults fetch tbl with
      | .ok res => ⟨q, s, tbl, .ok res⟩
      | .error _ => ⟨q, s, tbl, .error .fetchFailed⟩

/-- retrieve.py lines 98-179, `retrieve(ra, dec, ...)`.  The `ra` and
`dec` parameters are rebound from `List_of_RA_Dec.txt` (lines 119-126)
before any use, so they are dead; the poll loop then runs with the file
positions and, on completion, phase 2 fetches and assembles the results.
On timeout the final `n_retry == 60` check raises with no partial
result set. -/
def retrieve (ra dec : List ℚ) (env : Env) : RunTrace :=
  match pollAux env.statusResp (fileRa env) (fileDec env) 60 0 0 0 with
  | .timeout q s => ⟨q, s, [], .error .pollTimeout⟩
  | .done tbl q s => phase2 env.fetchResp tbl q s

/-- Attempt `n` of the poll loop does not end it: the status query
fails, or the returned table matches fewer rows than requested. -/
def incompleteAt (resp : ℕ → StatusResponse) (ra dec : List ℚ) (n : ℕ) :
    Prop :=
  ∀ tbl, resp n = .ok tbl → (matchedRows tbl ra dec).length < ra.length

/-- A fixed log10 oracle for concrete instantiations. -/
def lgW : ℚ → Option ℚ := fun _ => some 2

/-- A concrete raw row whose SNR is 10/4 = 2.5 < 3. -/
def rowSnrLow : RawRow := ⟨.num 2458216.1234, .num 10, .num 4, .num 20, .num 25, none⟩

/-- A concrete raw row whose SNR is 100/10 = 10 ≥ 3. -/
def rowSnrHigh : RawRow := ⟨.num 2458216.1234, .num 100, .num 10, .num 20, .num 25, none⟩

/-- A concrete raw row whose every cell is the "null" text sentinel. -/
def rowAllSent : RawRow := ⟨.sentinel, .sentinel, .sentinel, .sentinel, .sentinel, none⟩

/-- A status row at requested position (1, 2), exit code 0, with a
light-curve reference. -/
def rowGoodC : JobRow := ⟨1, 2, some 0, some "lca"⟩

/-- A status row at requested position (3, 4), bad exit code 63, with no
light-curve reference — the NoData disposition. -/
def rowBadC : JobRow := ⟨3, 4, some 63, none⟩

/-- Concrete environment for the fan-out evaluation: the status table
holds `rowGoodC` and `rowBadC`, the position file lists exactly their
two positions, and only `rowGoodC`'s file reference is fetchable. -/
def envC1 : Env :=
  ⟨fun _ => .ok [rowGoodC, rowBadC], [(1, 2), (3, 4)],
   fun lc => if lc = some "lca" then .ok [] else .error .fail⟩

/-- Concrete environment whose status endpoint always returns a non-200
code. -/
def envPollW : Env := ⟨fun _ => .fail 500, [], fun _ => .error .fail⟩

/-- A status row sitting at the first requested position. -/
def rowDupC : JobRow := ⟨1, 2, some 0, some "x"⟩

/-- A status row whose ra comes from the first requested position and
whose dec comes from the second. -/
def rowCrossC : JobRow := ⟨1, 4, some 0, some "x"⟩

theorem round7_intCast (n : ℤ) : round7 ((n : ℚ)) = n := by
  unfold round7
  have h1 : ((n : ℚ) * 10000000) = ((n * 10000000 : ℤ) : ℚ) := by push_cast; ring
  rw [h1, round_intCast]
  push_cast
  field_simp

theorem pollAux_timeout (resp : ℕ → StatusResponse) (ra dec : List ℚ)
    (h : ∀ n, incompleteAt resp ra dec n) :
    ∀ fuel nRetry q s, pollAux resp ra dec fuel nRetry q s =
      PollResult.timeout (q + fuel) (s + 60 * fuel) := by
  intro fuel
  induction fuel with
  | zero => intro nR q s; simp [pollAux]
  | succ k ih =>
    intro nR q s
    have e1 : q + 1 + k = q + (k + 1) := by ring
    have e2 : s + 60 + 60 * k = s + 60 * (k + 1) := by ring
    simp only [pollAux]
    cases hr : resp nR with
    | fail c => rw [ih, e1, e2]
    | ok tbl =>
      have hlt := h nR tbl hr
      have hc : continue_polling (matchedRows tbl ra dec).length ra.length
          = true := by simpa [continue_polling] using hlt
      simp only [hc, if_true]
      rw [ih, e1, e2]

/-- Claim C9: two `retrieve` calls that differ only in their `ra`/`dec`
arguments behave identically — the parameters are rebound from
`List_of_RA_Dec.txt` before any use, so the whole run trace (queries,
sleeps, dispatched fetches and the returned result set) depends only on
the environment. -/
theorem c9_ra_dec_params_dead (ra1 dec1 ra2 dec2 : List ℚ) (env : Env) :
    retrieve ra1 dec1 env = retrieve ra2 dec2 env := rfl

/-- Claim C5: if every poll attempt leaves the batch incomplete (the
status query keeps failing or the table keeps matching fewer rows than
requested), `retrieve` issues exactly 60 status queries with a 60-second
sleep after each (3600 seconds total), dispatches no fetch, and aborts
with the poll-timeout error — no partial result set. -/
theorem c5_poll_ceiling (ra dec : List ℚ) (env : Env)
    (h : ∀ n, incompleteAt env.statusResp (fileRa env) (fileDec env) n) :
    retrieve ra dec env = ⟨60, 3600, [], Except.error RunError.pollTimeout⟩ := by
  unfold retrieve
  rw [pollAux_timeout env.statusResp (fileRa env) (fileDec env) h 60 0 0 0]

/-- Witness for C5 at a concrete environment whose status endpoint
always returns HTTP 500. -/
theorem c5_poll_ceiling_witness :
    retrieve [] [] envPollW = ⟨60, 3600, [], Except.error RunError.pollTimeout⟩ :=
  c5_poll_ceiling [] [] envPollW (fun _ _ hr => by cases hr)

/-- Counterexample to claim C3: with requested positions (1, 2) and
(3, 4), the status row at (1, 4) — ra from the first position, dec from
the second — IS matched by the reconciler, although (1, 4) is not a
requested pair. -/
theorem c3_counterexample :
    matchedRows [rowCrossC] [1, 3] [2, 4] = [rowCrossC] ∧
    ((1 : ℚ), (4 : ℚ)) ∉ [((1 : ℚ), (2 : ℚ)), ((3 : ℚ), (4 : ℚ))] := by
  decide

/-- Claim C3 as amended: a status row is matched iff its ra equals some
requested ra AND its dec equals some requested dec, as two independent
membership tests — not pair equality. -/
theorem c3_isin_matching (tbl : List JobRow) (ra dec : List ℚ) (r : JobRow) :
    r ∈ matchedRows tbl ra dec ↔ r ∈ tbl ∧ r.ra ∈ ra ∧ r.dec ∈ dec := by
  simp [matchedRows, List.mem_filter, and_assoc]

/-- Counterexample to claim C6: three copies of a row at requested
position (1, 2) give a matched count of 3 against a requested count of
2 — the counts differ, yet the continuation decision is false (the code
tests `<`, not `≠`). -/
theorem c6_counterexample :
    (matchedRows [rowDupC, rowDupC, rowDupC] [1, 3] [2, 4]).length = 3 ∧
    (3 : ℕ) ≠ ([(1 : ℚ), 3]).length ∧
    continue_polling (matchedRows [rowDupC, rowDupC, rowDupC] [1, 3] [2, 4]).length
      ([(1 : ℚ), 3]).length = false := by
  decide

/-- Claim C6 as amended: the continuation decision is true iff the
matched-row count is strictly below the requested count; in every other
case — equality or a matched count exceeding the requested count — it is
false. -/
theorem c6_continuation_rule (matchedCount requestedCount : ℕ) :
    continue_polling matchedCount requestedCount = true ↔
      matchedCount < requestedCount := by
  simp [continue_polling]

theorem fileRa_envC1 : fileRa envC1 = [1, 3] := by
  have h1 : round7 (1 : ℚ) = 1 := by simpa using round7_intCast 1
  have h3 : round7 (3 : ℚ) = 3 := by simpa using round7_intCast 3
  simp [fileRa, envC1, h1, h3]

theorem fileDec_envC1 : fileDec envC1 = [2, 4] := by
  have h2 : round7 (2 : ℚ) = 2 := by simpa using round7_intCast 2
  have h4 : round7 (4 : ℚ) = 4 := by simpa using round7_intCast 4
  simp [fileDec, envC1, h2, h4]

/-- Claim C1 disproved on the code: in a run whose status table holds a
Success row and an exit-code-63 row, the fan-out loop (which iterates
`df_result`, not `good_df_result`) dispatches a fetch for the bad row
too; since that row's light-curve reference is null the fetch fails and
the whole run aborts — no null entry is recorded for it. -/
theorem c1_bug_eval :
    retrieve [] [] envC1 =
      ⟨1, 0, [rowGoodC, rowBadC], Except.error RunError.fetchFailed⟩ := by
  have hpoll : pollAux envC1.statusResp (fileRa envC1) (fileDec envC1)
      60 0 0 0 = PollResult.done [rowGoodC, rowBadC] 1 0 := by
    rw [fileRa_envC1, fileDec_envC1]
    decide
  unfold retrieve
  rw [hpoll]
  decide

theorem submitBatchAux_fires (ok : ℕ → Bool) :
    ∀ (ls : List (ℚ × ℚ)) (i : ℕ) (ra de : List ℚ) (acc : List SubmitCall),
      ra.length = i % 1500 → de.length = i % 1500 →
      1500 ≤ i % 1500 + ls.length →
      submitBatchAux ok ls i ra de acc =
        (acc ++ [⟨1500, 1500, true⟩], .exited (if ok acc.length then 0 else 1)) := by
  intro ls
  induction ls with
  | nil =>
    intro i ra de acc hra hde hlen
    exfalso
    have hm := Nat.mod_lt i (show 0 < 1500 by decide)
    simp at hlen
    omega
  | cons l ls ih =>
    intro i ra de acc hra hde hlen
    simp only [submitBatchAux]
    by_cases hmod : (i + 1) % 1500 = 0
    · have hm : i % 1500 = 1499 := by omega
      rw [if_pos hmod]
      simp [submit_post_model, hra, hde, hm]
    · rw [if_neg hmod]
      have hm1 : (i + 1) % 1500 = i % 1500 + 1 := by omega
      have hra1 : (ra ++ [round7 l.1]).length = (i + 1) % 1500 := by
        simp [hra, hm1]
      have hde1 : (de ++ [round7 l.2]).length = (i + 1) % 1500 := by
        simp [hde, hm1]
      have hlen1 : 1500 ≤ (i + 1) % 1500 + ls.length := by
        simp at hlen
        omega
      exact ih (i + 1) _ _ acc hra1 hde1 hlen1

/-- Claim C2 disproved on the code: submitting 3400 positions in batch
mode with every request answered 200 issues exactly ONE POST — carrying
the first 1500 positions — and then the process exits with code 0,
because `submit_post` terminates the process after every request; the
remaining 1900 positions are never submitted. -/
theorem c2_bug_eval :
    submitBatch (fun _ => true) (List.replicate 3400 ((0 : ℚ), (0 : ℚ))) =
      ([⟨1500, 1500, true⟩], .exited 0) ∧
    (submitBatch (fun _ => true)
      (List.replicate 3400 ((0 : ℚ), (0 : ℚ)))).1.length = 1 := by
  have h := submitBatchAux_fires (fun _ => true)
    (List.replicate 3400 ((0 : ℚ), (0 : ℚ))) 0 [] [] []
    (by simp) (by simp) (by rw [List.length_replicate]; omega)
  constructor
  · unfold submitBatch
    rw [h]
    rfl
  · unfold submitBatch
    rw [h]
    rfl

/-- Claim C4: on a fetched table row, if flux/uncertainty < 3, or the
uncertainty is zero, or the flux is NaN, then both the magnitude and the
magnitude error come out null (the masks are independent and
cumulative); otherwise the magnitude error is 1.0857·uncertainty/flux
and the magnitude is zeropoint − 2.5·log10(flux). -/
theorem c4_mag_masks (lg : ℚ → Option ℚ) (r : RawRow) :
    (r.forcediffimflux = Cell.nan →
      (normalizeRow lg r).mag = Cell.null ∧
      (normalizeRow lg r).magerr = Cell.null) ∧
    (∀ z f u : ℚ, r.zpdiff = Cell.num z → r.forcediffimflux = Cell.num f →
      r.forcediffimfluxunc = Cell.num u →
      ((f / u < 3 ∨ u = 0) →
        (normalizeRow lg r).mag = Cell.null ∧
        (normalizeRow lg r).magerr = Cell.null) ∧
      (¬ f / u < 3 →
        (normalizeRow lg r).magerr = Cell.num (1.0857 * u / f) ∧
        ∀ l, lg f = some l →
          (normalizeRow lg r).mag = Cell.num (z - 2.5 * l))) := by
  constructor
  · intro hf
    simp [normalizeRow, sentRepl, replCell, nanMask, cellIsNan, maskCell,
      finalRepl, hf]
  · intro z f u hz hf hu
    constructor
    · intro hmask
      by_cases hu0 : u = 0
      · subst hu0
        simp [normalizeRow, sentRepl, replCell, nanMask, zeroMask, snrMask,
          cellIsNan, cellIsZero, cellLt3, cdiv, maskCell, finalRepl,
          hz, hf, hu]
      · have hlt : f / u < 3 := hmask.resolve_right hu0
        simp [normalizeRow, sentRepl, replCell, nanMask, zeroMask, snrMask,
          cellIsNan, cellIsZero, cellLt3, cdiv, maskCell, finalRepl,
          hz, hf, hu, hu0, hlt]
    · intro hnlt
      have hu0 : u ≠ 0 := by
        intro h0
        exact hnlt (by simp [h0])
      have hf0 : f ≠ 0 := by
        intro h0
        exact hnlt (by simp [h0])
      constructor
      · simp [normalizeRow, sentRepl, replCell, nanMask, zeroMask, snrMask,
          magerrRaw, cellIsNan, cellIsZero, cellLt3, cdiv, cmul, maskCell,
          finalRepl, hz, hf, hu, hu0, hf0, hnlt]
      · intro l hl
        simp [normalizeRow, sentRepl, replCell, nanMask, zeroMask, snrMask,
          magRaw, cellIsNan, cellIsZero, cellLt3, cdiv, cmul, csub, clog10,
          maskCell, finalRepl, hz, hf, hu, hu0, hnlt, hl]

/-- Witness for C4: the spec's own test vectors — flux 10 with
uncertainty 4 (SNR 2.5 < 3) nulls both outputs; flux 100 with
uncertainty 10 and zeropoint 25 gives magnitude 25 − 2.5·log10(100)
(log10 oracle value 2) and magnitude error 1.0857·10/100 = 0.10857. -/
theorem c4_mag_masks_witness :
    (normalizeRow lgW rowSnrLow).mag = Cell.null ∧
    (normalizeRow lgW rowSnrLow).magerr = Cell.null ∧
    (normalizeRow lgW rowSnrHigh).mag = Cell.num 20 ∧
    (normalizeRow lgW rowSnrHigh).magerr = Cell.num 0.10857 := by
  have h1 := ((c4_mag_masks lgW rowSnrLow).2 25 10 4 rfl rfl rfl).1
    (Or.inl (by norm_num))
  have h2 := ((c4_mag_masks lgW rowSnrHigh).2 25 100 10 rfl rfl rfl).2
    (by norm_num)
  refine ⟨h1.1, h1.2, ?_, ?_⟩
  · rw [h2.2 2 rfl]
    exact congrArg Cell.num (by norm_num)
  · rw [h2.1]
    exact congrArg Cell.num (by norm_num)

/-- Claim C8 as amended: the normalizer's modified Julian date is exactly
the row's Julian date minus 2400000.5, for every row with a numeric jd
(so the spec's worked example jd = 2458216.1234 yields 58215.6234). -/
theorem c8_mjd_offset (lg : ℚ → Option ℚ) (r : RawRow) (q : ℚ)
    (h : r.jd = Cell.num q) :
    (normalizeRow lg r).mjd = Cell.num (q - 2400000.5) := by
  simp [normalizeRow, sentRepl, replCell, csub, finalRepl, h]

/-- Witness for C8 at jd = 2458216.1234: the mjd is 58215.6234. -/
theorem c8_mjd_offset_witness :
    (normalizeRow lgW rowSnrHigh).mjd = Cell.num 58215.6234 := by
  rw [c8_mjd_offset lgW rowSnrHigh 2458216.1234 rfl]
  exact congrArg Cell.num (by norm_num)

/-- Counterexample to C8's worked example: at jd = 2458216.1234 the code
produces mjd = 58215.6234, not the 2457215.7234 the spec displays
(2458216.1234 − 2400000.5 = 58215.6234). -/
theorem c8_counterexample :
    (normalizeRow lgW rowSnrLow).mjd = Cell.num 58215.6234 ∧
    (normalizeRow lgW rowSnrLow).mjd ≠ Cell.num 2457215.7234 := by
  have h : (normalizeRow lgW rowSnrLow).mjd =
      Cell.num (2458216.1234 - 2400000.5) := by
    simp [normalizeRow, sentRepl, replCell, csub, finalRepl, rowSnrLow]
  constructor
  · rw [h]
    exact congrArg Cell.num (by norm_num)
  · rw [h]
    intro hc
    have hq := Cell.num.inj hc
    norm_num at hq

theorem csub_shape (a b : Cell) :
    csub a b = Cell.nan ∨ ∃ q, csub a b = Cell.num q := by
  unfold csub
  cases a <;> cases b <;> simp

theorem cdiv_shape (a b : Cell) :
    cdiv a b = Cell.nan ∨ ∃ q, cdiv a b = Cell.num q := by
  unfold cdiv
  cases a <;> cases b <;> try simp
  rename_i x y
  by_cases hy : y = 0
  · simp [hy]
  · simp [hy]

theorem maskCell_shape (b : Bool) (c : Cell)
    (h : c = Cell.nan ∨ ∃ q, c = Cell.num q) :
    maskCell b c = Cell.nan ∨ ∃ q, maskCell b c = Cell.num q := by
  cases b
  · simpa [maskCell] using h
  · simp [maskCell]

theorem finalRepl_shape (c : Cell)
    (h : c = Cell.nan ∨ ∃ q, c = Cell.num q) :
    finalRepl c = Cell.null ∨ ∃ q, finalRepl c = Cell.num q := by
  rcases h with h | ⟨q, h⟩ <;> subst h <;> simp [finalRepl]

theorem finalRepl_replCell_shape (c : Cell) :
    finalRepl (replCell c) = Cell.null ∨
      ∃ q, finalRepl (replCell c) = Cell.num q := by
  cases c <;> simp [replCell, finalRepl]

theorem normalizeRow_no_nan (lg : ℚ → Option ℚ) (r : RawRow) :
    ((normalizeRow lg r).mjd = Cell.null ∨
      ∃ q, (normalizeRow lg r).mjd = Cell.num q) ∧
    ((normalizeRow lg r).mag = Cell.null ∨
      ∃ q, (normalizeRow lg r).mag = Cell.num q) ∧
    ((normalizeRow lg r).magerr = Cell.null ∨
      ∃ q, (normalizeRow lg r).magerr = Cell.num q) ∧
    ((normalizeRow lg r).limiting_mag = Cell.null ∨
      ∃ q, (normalizeRow lg r).limiting_mag = Cell.num q) := by
  refine ⟨?_, ?_, ?_, ?_⟩
  · exact finalRepl_shape _ (csub_shape _ _)
  · exact finalRepl_shape _ (maskCell_shape _ _ (maskCell_shape _ _
      (maskCell_shape _ _ (csub_shape _ _))))
  · exact finalRepl_shape _ (maskCell_shape _ _ (maskCell_shape _ _
      (maskCell_shape _ _ (cdiv_shape _ _))))
  · exact finalRepl_replCell_shape _

/-- Claim C10: every value in every column of the output mapping of
`fetch_lightcurve` is either None or a finite number — the final
NaN → None replacement runs before the column-major dictionary is
built, so no NaN (and no stray text sentinel) reaches the result set. -/
theorem c10_no_nan (lg : ℚ → Option ℚ) (rows : List RawRow)
    (p : String × List Cell) (c : Cell)
    (hp : p ∈ outColumns lg rows) (hc : c ∈ p.2) :
    c = Cell.null ∨ ∃ q, c = Cell.num q := by
  simp only [outColumns, List.mem_cons, List.not_mem_nil, or_false] at hp
  rcases hp with h | h | h | h <;> subst h <;>
    rcases List.mem_map.mp hc with ⟨o, ho, rfl⟩ <;>
    rcases List.mem_map.mp ho with ⟨r, hr, rfl⟩
  · exact (normalizeRow_no_nan lg r).1
  · exact (normalizeRow_no_nan lg r).2.1
  · exact (normalizeRow_no_nan lg r).2.2.1
  · exact (normalizeRow_no_nan lg r).2.2.2

/-- Witness for C10: a row whose cells are all the "null" text sentinel
(in particular the flux uncertainty) yields a null magnitude error, and
that null sits in the magerr column of the output mapping. -/
theorem c10_no_nan_witness :
    ("magerr", [Cell.null]) ∈ outColumns lgW [rowAllSent] ∧
    (Cell.null = Cell.null ∨ ∃ q, Cell.null = Cell.num q) :=
  ⟨by decide, c10_no_nan lgW [rowAllSent] ("magerr", [Cell.null]) Cell.null
    (by decide) (by decide)⟩

theorem mem_addCol {x a : String} {l : List String}
    (h : x ∈ addCol l a) : x ∈ l ∨ x = a := by
  unfold addCol at h
  split at h
  · exact Or.inl h
  · rcases List.mem_append.mp h with h1 | h1
    · exact Or.inl h1
    · simp at h1
      exact Or.inr h1

theorem stripCommas_keep : ∀ y ∈ keep_columns, stripCommas y = y := by
  decide

theorem normalize_columns_ok (cols out : List String)
    (h : normalize_columns cols = Except.ok out) :
    ∀ x ∈ out, x ∈ keep_columns ∨ x = "magsys" := by
  simp only [normalize_columns] at h
  split at h
  · simp only [Except.ok.injEq] at h
    subst h
    intro x hx
    rcases mem_addCol hx with h1 | h1
    · rw [List.mem_filter] at h1
      exact Or.inl (of_decide_eq_true h1.2)
    · exact Or.inr h1
  · exact absurd h (by simp)

/-- Claim C7 as amended: re-running the normalizer on its own reduced
output column set always fails with the missing-column error — the
required input columns (jd and the flux columns) are dropped by the
first run, so the normalization is NOT idempotent on its output. -/
theorem c7_not_idempotent (cols out : List String)
    (h : normalize_columns cols = Except.ok out) :
    normalize_columns out = Except.error "Missing expected column" := by
  have hmem := normalize_columns_ok cols out h
  have hnot : ("jd" : String) ∉ out.map stripCommas := by
    intro hmemjd
    rcases List.mem_map.mp hmemjd with ⟨y, hy, hs⟩
    rcases hmem y hy with hk | hm
    · rw [stripCommas_keep y hk] at hs
      subst hs
      exact absurd hk (by decide)
    · subst hm
      exact absurd hs (by decide)
  have hjd : (decide (("jd" : String) ∈ out.map stripCommas)) = false :=
    decide_eq_false hnot
  have hcond : ¬ (desired_columns.all
      (fun c => decide (c ∈ List.map stripCommas out)) = true) := by
    simp only [desired_columns, List.all_cons, hjd, Bool.false_and]
    exact Bool.false_ne_true
  simp only [normalize_columns]
  rw [if_neg hcond]

/-- Counterexample to claim C7: feeding the exact required-column set
through the normalizer yields the reduced output column set, and running
the normalizer again on that output raises the missing-column error
instead of succeeding. -/
theorem c7_counterexample :
    normalize_columns desired_columns =
      Except.ok ["limiting_mag", "filter", "mjd", "mag", "magerr", "magsys"] ∧
    normalize_columns
        ["limiting_mag", "filter", "mjd", "mag", "magerr", "magsys"] =
      Except.error "Missing expected column" := by
  decide

/-- Witness for C7's amended statement at the concrete first-run output. -/
theorem c7_not_idempotent_witness :
    normalize_columns
        ["limiting_mag", "filter", "mjd", "mag", "magerr", "magsys"] =
      Except.error "Missing expected column" :=
  c7_not_idempotent desired_columns _ (by decide)
